import Mathlib

/-!
# Verification of the rabbit-clients decorator layer

Shallow embedding of `rabbit_clients/clients/blocking.py` and
`rabbit_clients/clients/base.py`.  The broker transport (pika), the JSON
codec (the json module) and the retry decorator (the retry package) are
external collaborators; the transport is modelled as explicit state, the
codec as a structure of encode/decode functions, and the retry decorator
from its documented semantics as configured at the call sites
(`tries=5`, catching only `AMQPConnectionError`).

Python values carried in message bodies are modelled by `PyVal`; the
non-JSON-encodable pika method frame returned by `queue_declare` is the
constructor `PyVal.frame`.  Exceptions relevant to the claims are
modelled by `PyErr`.
-/

set_option autoImplicit false

/-- Structured Python values moved through the system.  `frame` stands for
the pika method frame returned by `channel.queue_declare`, which the json
module cannot encode. -/
inductive PyVal where
  | none : PyVal
  | bool : Bool → PyVal
  | int : Int → PyVal
  | str : String → PyVal
  | list : List PyVal → PyVal
  | dict : List (String × PyVal) → PyVal
  | frame : PyVal

/-- The Python exceptions the embedded code can raise: pika
`AMQPConnectionError` (spec: ConnectionError), json encode/decode failures
(spec: SerializationError), and `TypeError` (wrong call arity, non-string
queue argument). -/
inductive PyErr where
  | connectionError : PyErr
  | serializationError : PyErr
  | typeError : PyErr
deriving DecidableEq, Repr

mutual

/-- A value is JSON-encodable iff it contains no pika frame. -/
def PyVal.serializable : PyVal → Bool
  | PyVal.none => true
  | PyVal.bool _ => true
  | PyVal.int _ => true
  | PyVal.str _ => true
  | PyVal.list vs => serializableList vs
  | PyVal.dict kvs => serializableDict kvs
  | PyVal.frame => false

/-- All elements of a list are JSON-encodable. -/
def serializableList : List PyVal → Bool
  | [] => true
  | v :: vs => v.serializable && serializableList vs

/-- All values of a dict are JSON-encodable. -/
def serializableDict : List (String × PyVal) → Bool
  | [] => true
  | kv :: kvs => kv.2.serializable && serializableDict kvs

end

/-- The external JSON codec: `dumps` renders an encodable value to a wire
string, `loads` parses a wire string back (or fails). -/
structure Codec where
  dumps : PyVal → String
  loads : String → Except PyErr PyVal

/-- `json.dumps` as called by the code: raises on a non-encodable value
(Python TypeError, the SerializationError of the spec taxonomy), otherwise
defers to the codec. -/
def dumpsPy (J : Codec) (v : PyVal) : Except PyErr String :=
  if v.serializable then Except.ok (J.dumps v) else Except.error PyErr.serializationError

/-- One `basic_publish` event recorded against the broker: the exchange,
the routing key and the wire body. -/
structure PubEvent where
  exchange : String
  routingKey : String
  body : String
deriving DecidableEq, Repr

/-- Broker-side state touched by the channel operations. -/
structure Broker where
  declaredQueues : List String
  declaredExchanges : List (String × String)
  bindings : List (String × String)
  published : List PubEvent
deriving DecidableEq, Repr

/-- `channel.queue_declare(queue=q)`: idempotent existence-ensuring
declaration. -/
def queueDeclare (q : String) (b : Broker) : Broker :=
  if q ∈ b.declaredQueues then b
  else { b with declaredQueues := b.declaredQueues ++ [q] }

/-- `channel.exchange_declare(exchange=e, exchange_type=t)`. -/
def exchangeDeclare (e t : String) (b : Broker) : Broker :=
  if (e, t) ∈ b.declaredExchanges then b
  else { b with declaredExchanges := b.declaredExchanges ++ [(e, t)] }

/-- `channel.queue_bind(exchange=e, queue=q)`. -/
def queueBind (e q : String) (b : Broker) : Broker :=
  if (e, q) ∈ b.bindings then b
  else { b with bindings := b.bindings ++ [(e, q)] }

/-- `channel.basic_publish(exchange=e, routing_key=rk, body=s)`: appends a
publish event. -/
def basicPublish (e rk s : String) (b : Broker) : Broker :=
  { b with published := b.published ++ [PubEvent.mk e rk s] }

/-- Whole-system state threaded through an embedded call: the broker, the
outcome plan for successive connection attempts (head consumed per attempt,
an exhausted plan means the transport is reachable), and the trace of
argument lists the traced user function was invoked with. -/
structure SysState where
  broker : Broker
  connPlan : List Bool
  fCalls : List (List PyVal)

/-- `_create_connection_and_channel()`: one network connection attempt,
consuming the next entry of the connection plan; a `false` entry raises
`AMQPConnectionError`. -/
def createConnection (s : SysState) : SysState × Except PyErr Unit :=
  match s.connPlan with
  | [] => (s, Except.ok ())
  | b :: rest =>
      ({ s with connPlan := rest },
       if b then Except.ok () else Except.error PyErr.connectionError)

/-- Lift a pure user function to an effectful one that records each
invocation (its argument list) in the state, for counting invocations. -/
def recording (f : List PyVal → PyVal) : List PyVal → SysState → SysState × PyVal :=
  fun args s => ({ s with fCalls := s.fCalls ++ [args] }, f args)

/-- Constructor arguments of `PublishMessage` in `blocking.py`. -/
structure PublishMessage where
  queue : String
  exchange : String := ""
  exchangeType : String := "fanout"
deriving DecidableEq, Repr

/-- One attempt of the inner `wrapper` of `PublishMessage.__call__`
(`blocking.py`): run the wrapped function, open connection and channel,
declare topology (when an exchange is given, the source rebinds `result`
to the frame returned by `queue_declare`), then publish
`json.dumps(result)` with the queue name as routing key. -/
def publishAttempt (J : Codec) (p : PublishMessage)
    (f : List PyVal → SysState → SysState × PyVal) (args : List PyVal)
    (s : SysState) : SysState × Except PyErr Unit :=
  let fr := f args s
  let s := fr.1
  let result := fr.2
  match createConnection s with
  | (s, Except.error e) => (s, Except.error e)
  | (s, Except.ok ()) =>
      if p.exchange ≠ "" then
        let s := { s with broker := exchangeDeclare p.exchange p.exchangeType s.broker }
        let result := PyVal.frame
        let s := { s with broker := queueDeclare p.queue s.broker }
        let s := { s with broker := queueBind p.exchange p.queue s.broker }
        match dumpsPy J result with
        | Except.error e => (s, Except.error e)
        | Except.ok body =>
            ({ s with broker := basicPublish p.exchange p.queue body s.broker }, Except.ok ())
      else
        let s := { s with broker := queueDeclare p.queue s.broker }
        match dumpsPy J result with
        | Except.error e => (s, Except.error e)
        | Except.ok body =>
            ({ s with broker := basicPublish p.exchange p.queue body s.broker }, Except.ok ())

/-- Modelled from the spec: the external retry decorator as configured in
the source, `retry(AMQPConnectionError, tries=n, ...)`.  The wrapped
operation is run; on `AMQPConnectionError` it is retried while attempts
remain, the final failure being re-raised; any other exception propagates
immediately.  Delays and jitter have no observable effect on state and are
not modelled. -/
def retryRun {σ : Type} (op : σ → σ × Except PyErr Unit) : Nat → σ → σ × Except PyErr Unit
  | 0, s => (s, Except.ok ())
  | 1, s => op s
  | n + 2, s =>
      match op s with
      | (s', Except.error PyErr.connectionError) => retryRun op (n + 1) s'
      | r => r

/-- The wrapped function returned by `PublishMessage.__call__`: the
attempt under `retry(pika.exceptions.AMQPConnectionError, tries=5, ...)`. -/
def publishWrapper (J : Codec) (p : PublishMessage)
    (f : List PyVal → SysState → SysState × PyVal) (args : List PyVal)
    (s : SysState) : SysState × Except PyErr Unit :=
  retryRun (publishAttempt J p f args) 5 s

/-- Constructor arguments of `ConsumeMessage` in `blocking.py`. -/
structure ConsumeMessage where
  queue : String
  exchange : String := ""
  exchangeType : String := ""
  logging : Bool := true
  loggingQueue : String := "logging"
deriving DecidableEq, Repr

/-- `send_log` in `blocking.py`: the log envelope built from the delivery
metadata (rendered with `str`) and the decoded body. -/
def send_log (channel method properties : String) (body : PyVal) : PyVal :=
  PyVal.dict
    [("channel", PyVal.str channel),
     ("method", PyVal.str method),
     ("properties", PyVal.str properties),
     ("body", body)]

/-- `message_handler` inside `ConsumeMessage.__call__.prepare_channel`:
decode the body with `json.loads`; when logging is enabled, run the
wrapped `send_log` through the logging `PublishMessage`
(`PublishMessage(queue=self._logging_queue)`, default empty exchange);
then call the user function with the decoded body.  The user function is
effectful on the system state. -/
def messageHandler (J : Codec) (c : ConsumeMessage)
    (f : PyVal → SysState → SysState × Unit)
    (channel method properties : String) (body : String)
    (s : SysState) : SysState × Except PyErr Unit :=
  match J.loads body with
  | Except.error _ => (s, Except.error PyErr.serializationError)
  | Except.ok decoded =>
      let afterLog :=
        if c.logging then
          publishWrapper J (PublishMessage.mk c.loggingQueue "" "fanout")
            (fun _ s => (s, send_log channel method properties decoded)) [] s
        else (s, Except.ok ())
      match afterLog with
      | (s, Except.error e) => (s, Except.error e)
      | (s, Except.ok ()) => ((f decoded s).1, Except.ok ())

/-- How an uninterrupted `start_consuming` loop ends once no handler has
raised: the broker closes the connection, or the operator interrupts. -/
inductive ListenEnd where
  | brokerClosed : ListenEnd
  | interrupt : ListenEnd
deriving DecidableEq, Repr

/-- `channel.start_consuming()`: deliver the queued messages to the
registered handler in order; an exception from the handler propagates
out of the loop, otherwise the loop ends with the given terminal event. -/
def startConsuming (J : Codec) (c : ConsumeMessage)
    (f : PyVal → SysState → SysState × Unit)
    (deliveries : List (String × String × String × String)) (terminal : ListenEnd)
    (s : SysState) : SysState × Except PyErr ListenEnd :=
  match deliveries with
  | [] => (s, Except.ok terminal)
  | (channel, method, properties, body) :: rest =>
      match messageHandler J c f channel method properties body s with
      | (s, Except.ok ()) => startConsuming J c f rest terminal s
      | (s, Except.error e) => (s, Except.error e)

/-- One attempt of `prepare_channel` in `ConsumeMessage.__call__`: open
connection and channel, declare topology (exchange plus bound queue when
an exchange is given, else the queue alone), register the handler and
consume; `ConnectionClosedByBroker` is passed over and
`KeyboardInterrupt` stops consuming, both returning normally. -/
def consumeAttempt (J : Codec) (c : ConsumeMessage)
    (f : PyVal → SysState → SysState × Unit)
    (deliveries : List (String × String × String × String)) (terminal : ListenEnd)
    (s : SysState) : SysState × Except PyErr Unit :=
  match createConnection s with
  | (s, Except.error e) => (s, Except.error e)
  | (s, Except.ok ()) =>
      let s :=
        if c.exchange ≠ "" then
          let s := { s with broker := exchangeDeclare c.exchange c.exchangeType s.broker }
          let s := { s with broker := queueDeclare c.queue s.broker }
          { s with broker := queueBind c.exchange c.queue s.broker }
        else
          { s with broker := queueDeclare c.queue s.broker }
      match startConsuming J c f deliveries terminal s with
      | (s, Except.ok _) => (s, Except.ok ())
      | (s, Except.error e) => (s, Except.error e)

/-- The listener returned by `ConsumeMessage.__call__`: the attempt under
`retry(pika.exceptions.AMQPConnectionError, tries=5, ...)`. -/
def consumeWrapper (J : Codec) (c : ConsumeMessage)
    (f : PyVal → SysState → SysState × Unit)
    (deliveries : List (String × String × String × String)) (terminal : ListenEnd)
    (s : SysState) : SysState × Except PyErr Unit :=
  retryRun (consumeAttempt J c f deliveries terminal) 5 s

/-- The `queue` argument of `publish_message` in `base.py`, typed
`Union[str, List[str]]` in the source. -/
inductive QueueArg where
  | one : String → QueueArg
  | many : List String → QueueArg
deriving DecidableEq, Repr

/-- Python truthiness of the `publish_queues` value: `None` is handled by
the caller; the empty string and the empty list are falsy. -/
def QueueArg.truthy : QueueArg → Bool
  | QueueArg.one q => q ≠ ""
  | QueueArg.many qs => qs ≠ []

/-- `prepare_channel` inside `publish_message` (`base.py`): run the
wrapped function, ensure the global connection (`_check_connection`),
declare the target queue and publish `json.dumps(result)`.  There is no
retry wrapper in this module.  pika rejects a non-string queue argument,
so a list passed as `queue` raises a TypeError at `queue_declare`. -/
def basePublishAttempt (J : Codec) (queue : QueueArg) (exchange : String)
    (f : List PyVal → SysState → SysState × PyVal) (args : List PyVal)
    (s : SysState) : SysState × Except PyErr Unit :=
  let fr := f args s
  let s := fr.1
  let result := fr.2
  match createConnection s with
  | (s, Except.error e) => (s, Except.error e)
  | (s, Except.ok ()) =>
      match queue with
      | QueueArg.many _ => (s, Except.error PyErr.typeError)
      | QueueArg.one q =>
          let s := { s with broker := queueDeclare q s.broker }
          match dumpsPy J result with
          | Except.error e => (s, Except.error e)
          | Except.ok body =>
              ({ s with broker := basicPublish exchange q body s.broker }, Except.ok ())

/-- `message_handler` inside `consume_message` (`base.py`): the decorated
inner `send_log` is defined but never invoked (decorating does not call),
so the handler only forwards: when `publish_queues` is truthy, it runs
`publish_message(queue=publish_queues, exchange=exchange)(func)` on the
decoded body.  The user function is called only on that path. -/
def baseMessageHandler (J : Codec) (publishQueues : Option QueueArg) (exchange : String)
    (f : List PyVal → SysState → SysState × PyVal)
    (_channel _method _properties : String) (body : String)
    (s : SysState) : SysState × Except PyErr Unit :=
  match publishQueues with
  | Option.none => (s, Except.ok ())
  | Option.some qa =>
      if qa.truthy then
        match J.loads body with
        | Except.error _ => (s, Except.error PyErr.serializationError)
        | Except.ok decoded => basePublishAttempt J qa exchange f [decoded] s
      else (s, Except.ok ())

/-- The non-production branch of `prepare_channel` in `consume_message`
(`base.py`): ensure the connection, declare the consume queue, perform one
`basic_get`.  The fetch yields `(None, None, None)` on an empty queue
(modelled `Option.none`); the code guards the handler call with the
truthiness of `body`, so an empty body is treated like an absent message.
The trailing decorated `send_log` is defined but never invoked. -/
def basePrepareChannelSingle (J : Codec) (consumeQueue : String)
    (publishQueues : Option QueueArg) (exchange : String)
    (f : List PyVal → SysState → SysState × PyVal)
    (fetch : Option (String × String × String))
    (s : SysState) : SysState × Except PyErr Unit :=
  match createConnection s with
  | (s, Except.error e) => (s, Except.error e)
  | (s, Except.ok ()) =>
      let s := { s with broker := queueDeclare consumeQueue s.broker }
      match fetch with
      | Option.none => (s, Except.ok ())
      | Option.some (_, _, body) =>
          if body ≠ "" then
            baseMessageHandler J publishQueues exchange f "None" "None" "None" body s
          else (s, Except.ok ())

/-- `_CHANNEL.start_consuming()` in `base.py`: like the blocking-module
loop, delivering queued messages to the `base.py` handler. -/
def baseStartConsuming (J : Codec) (publishQueues : Option QueueArg) (exchange : String)
    (f : List PyVal → SysState → SysState × PyVal)
    (deliveries : List (String × String × String × String)) (terminal : ListenEnd)
    (s : SysState) : SysState × Except PyErr ListenEnd :=
  match deliveries with
  | [] => (s, Except.ok terminal)
  | (channel, method, properties, body) :: rest =>
      match baseMessageHandler J publishQueues exchange f channel method properties body s with
      | (s, Except.ok ()) => baseStartConsuming J publishQueues exchange f rest terminal s
      | (s, Except.error e) => (s, Except.error e)

/-- The production branch of `prepare_channel` in `consume_message`
(`base.py`): only `KeyboardInterrupt` is caught; a broker-closed
connection raises `ConnectionClosedByBroker`, a subclass of
`AMQPConnectionError`, which propagates. -/
def basePrepareChannelProd (J : Codec) (consumeQueue : String)
    (publishQueues : Option QueueArg) (exchange : String)
    (f : List PyVal → SysState → SysState × PyVal)
    (deliveries : List (String × String × String × String)) (terminal : ListenEnd)
    (s : SysState) : SysState × Except PyErr Unit :=
  match createConnection s with
  | (s, Except.error e) => (s, Except.error e)
  | (s, Except.ok ()) =>
      let s := { s with broker := queueDeclare consumeQueue s.broker }
      match baseStartConsuming J publishQueues exchange f deliveries terminal s with
      | (s, Except.ok ListenEnd.interrupt) => (s, Except.ok ())
      | (s, Except.ok ListenEnd.brokerClosed) => (s, Except.error PyErr.connectionError)
      | (s, Except.error e) => (s, Except.error e)

/-- The listener returned by `consume_message(...)(func)` in `base.py`.
The source `prepare_channel` is declared with no parameters, so calling
the listener with any positional argument raises a TypeError before its
body runs. -/
def baseConsumeListener (J : Codec) (consumeQueue : String)
    (publishQueues : Option QueueArg) (exchange : String) (productionReady : Bool)
    (f : List PyVal → SysState → SysState × PyVal)
    (fetch : Option (String × String × String))
    (deliveries : List (String × String × String × String)) (terminal : ListenEnd)
    (callArgs : List PyVal) (s : SysState) : SysState × Except PyErr Unit :=
  match callArgs with
  | [] =>
      if productionReady then
        basePrepareChannelProd J consumeQueue publishQueues exchange f deliveries terminal s
      else
        basePrepareChannelSingle J consumeQueue publishQueues exchange f fetch s
  | _ :: _ => (s, Except.error PyErr.typeError)

/-- `message_pipeline` (`base.py`): the returned `wrapper` calls the
listener produced by
`consume_message(consume_queue, publish_queues=publish_queue, ...)` with
the message dictionary as a positional argument. -/
def messagePipelineWrapper (J : Codec) (consumeQueue publishQueue exchange : String)
    (productionReady : Bool)
    (f : List PyVal → SysState → SysState × PyVal)
    (fetch : Option (String × String × String))
    (deliveries : List (String × String × String × String)) (terminal : ListenEnd)
    (messageDict : PyVal) (s : SysState) : SysState × Except PyErr Unit :=
  baseConsumeListener J consumeQueue (Option.some (QueueArg.one publishQueue)) exchange
    productionReady f fetch deliveries terminal [messageDict] s

/-- Escape the wire delimiters inside an encoded string. -/
def escChars : List Char → List Char
  | [] => []
  | c :: rest =>
      if c = ';' ∨ c = '\\' then '\\' :: c :: escChars rest else c :: escChars rest

/-- Decimal digits of a natural number. -/
def natChars (n : Nat) : List Char := Nat.toDigits 10 n

/-- Decimal rendering of an integer. -/
def intChars (i : Int) : List Char :=
  if i < 0 then '-' :: natChars i.natAbs else natChars i.natAbs

mutual

/-- A concrete executable wire encoding of `PyVal`, used to instantiate
the external codec in witnesses. -/
def encVal : PyVal → List Char
  | PyVal.none => ['n']
  | PyVal.bool b => if b then ['t'] else ['f']
  | PyVal.int i => 'i' :: (intChars i ++ [';'])
  | PyVal.str s => 's' :: (escChars s.data ++ [';'])
  | PyVal.list vs => 'l' :: (encList vs ++ ['e'])
  | PyVal.dict kvs => 'd' :: (encDict kvs ++ ['e'])
  | PyVal.frame => ['n']

/-- Encode the elements of a list, concatenated. -/
def encList : List PyVal → List Char
  | [] => []
  | v :: vs => encVal v ++ encList vs

/-- Encode the entries of a dict, each as an encoded key then an encoded
value. -/
def encDict : List (String × PyVal) → List Char
  | [] => []
  | kv :: kvs => ('s' :: (escChars kv.1.data ++ [';'])) ++ encVal kv.2 ++ encDict kvs

end

/-- Read an escaped string up to and including its terminating
semicolon. -/
def takeEsc : List Char → Option (List Char × List Char)
  | [] => Option.none
  | c :: rest =>
      if c = ';' then Option.some ([], rest)
      else if c = '\\' then
        match rest with
        | [] => Option.none
        | d :: rest2 =>
            match takeEsc rest2 with
            | Option.some (cs, r) => Option.some (d :: cs, r)
            | Option.none => Option.none
      else
        match takeEsc rest with
        | Option.some (cs, r) => Option.some (c :: cs, r)
        | Option.none => Option.none

/-- Split at the first semicolon. -/
def splitSemi : List Char → Option (List Char × List Char)
  | [] => Option.none
  | c :: rest =>
      if c = ';' then Option.some ([], rest)
      else
        match splitSemi rest with
        | Option.some (cs, r) => Option.some (c :: cs, r)
        | Option.none => Option.none

/-- Accumulate decimal digits. -/
def parseDigits : List Char → Nat → Nat
  | [], acc => acc
  | c :: rest, acc => parseDigits rest (acc * 10 + (c.toNat - 48))

/-- Decode a decimal integer, optionally signed. -/
def decInt : List Char → Int
  | '-' :: rest => - Int.ofNat (parseDigits rest 0)
  | ds => Int.ofNat (parseDigits ds 0)

mutual

/-- Fueled parser for the concrete wire encoding: one value. -/
def parseVal : Nat → List Char → Option (PyVal × List Char)
  | 0, _ => Option.none
  | _ + 1, [] => Option.none
  | fuel + 1, c :: rest =>
      if c = 'n' then Option.some (PyVal.none, rest)
      else if c = 't' then Option.some (PyVal.bool true, rest)
      else if c = 'f' then Option.some (PyVal.bool false, rest)
      else if c = 'i' then
        match splitSemi rest with
        | Option.some (ds, r) => Option.some (PyVal.int (decInt ds), r)
        | Option.none => Option.none
      else if c = 's' then
        match takeEsc rest with
        | Option.some (cs, r) => Option.some (PyVal.str (String.mk cs), r)
        | Option.none => Option.none
      else if c = 'l' then
        match parseItems fuel (c :: rest).tail with
        | Option.some (vs, r) => Option.some (PyVal.list vs, r)
        | Option.none => Option.none
      else if c = 'd' then
        match parseEntries fuel rest with
        | Option.some (kvs, r) => Option.some (PyVal.dict kvs, r)
        | Option.none => Option.none
      else Option.none

/-- Fueled parser: list elements until the closing marker. -/
def parseItems : Nat → List Char → Option (List PyVal × List Char)
  | 0, _ => Option.none
  | _ + 1, [] => Option.none
  | fuel + 1, c :: rest =>
      if c = 'e' then Option.some ([], rest)
      else
        match parseVal fuel (c :: rest) with
        | Option.some (v, r) =>
            match parseItems fuel r with
            | Option.some (vs, r2) => Option.some (v :: vs, r2)
            | Option.none => Option.none
        | Option.none => Option.none

/-- Fueled parser: dict entries until the closing marker. -/
def parseEntries : Nat → List Char → Option (List (String × PyVal) × List Char)
  | 0, _ => Option.none
  | _ + 1, [] => Option.none
  | fuel + 1, c :: rest =>
      if c = 'e' then Option.some ([], rest)
      else if c = 's' then
        match takeEsc rest with
        | Option.some (ks, r) =>
            match parseVal fuel r with
            | Option.some (v, r2) =>
                match parseEntries fuel r2 with
                | Option.some (kvs, r3) => Option.some ((String.mk ks, v) :: kvs, r3)
                | Option.none => Option.none
            | Option.none => Option.none
        | Option.none => Option.none
      else Option.none

end

/-- A concrete instantiation of the external codec, used by witnesses. -/
def simpleCodec : Codec :=
  Codec.mk (fun v => String.mk (encVal v))
    (fun s =>
      match parseVal (2 * s.data.length + 4) s.data with
      | Option.some (v, []) => Except.ok v
      | _ => Except.error PyErr.serializationError)

/-! ## Helper lemmas -/

theorem published_queueDeclare (q : String) (b : Broker) :
    (queueDeclare q b).published = b.published := by
  unfold queueDeclare; split <;> rfl

theorem serializable_send_log (ch me pr : String) (v : PyVal) :
    (send_log ch me pr v).serializable = v.serializable := by
  simp [send_log, PyVal.serializable, serializableDict]

theorem createConnection_error (s : SysState) (e : PyErr)
    (h : (createConnection s).2 = Except.error e) : e = PyErr.connectionError := by
  unfold createConnection at h
  match hp : s.connPlan with
  | [] => rw [hp] at h; exact absurd h (by simp)
  | b :: rest =>
      rw [hp] at h
      cases b
      · simpa using h.symm
      · exact absurd h (by simp)

theorem retryRun_one {σ : Type} (op : σ → σ × Except PyErr Unit) (s : σ) :
    retryRun op 1 s = op s := rfl

theorem retryRun_conn {σ : Type} (op : σ → σ × Except PyErr Unit) (n : Nat) (s s' : σ)
    (h : op s = (s', Except.error PyErr.connectionError)) :
    retryRun op (n + 2) s = retryRun op (n + 1) s' := by
  have e : retryRun op (n + 2) s =
      (match op s with
       | (t, Except.error PyErr.connectionError) => retryRun op (n + 1) t
       | r => r) := rfl
  rw [e, h]

theorem retryRun_stop {σ : Type} (op : σ → σ × Except PyErr Unit) (n : Nat) (s : σ)
    (h : (op s).2 ≠ Except.error PyErr.connectionError) :
    retryRun op (n + 2) s = op s := by
  have e : retryRun op (n + 2) s =
      (match op s with
       | (t, Except.error PyErr.connectionError) => retryRun op (n + 1) t
       | r => r) := rfl
  rw [e]
  rcases hop : op s with ⟨t, r⟩
  cases r with
  | ok u => cases u; rfl
  | error pe =>
      cases pe with
      | connectionError => exact absurd (by rw [hop]) h
      | serializationError => rfl
      | typeError => rfl

theorem publishAttempt_ok_general (J : Codec) (p : PublishMessage)
    (f : List PyVal → SysState → SysState × PyVal) (args : List PyVal) (s : SysState)
    (hex : p.exchange = "")
    (hconn : (f args s).1.connPlan = [])
    (hser : (f args s).2.serializable = true) :
    publishAttempt J p f args s =
      ({ (f args s).1 with
          broker := basicPublish "" p.queue (J.dumps (f args s).2)
            (queueDeclare p.queue (f args s).1.broker) }, Except.ok ()) := by
  rcases hf : f args s with ⟨s1, v⟩
  rw [hf] at hconn hser
  unfold publishAttempt
  rw [hf]
  simp only at hconn hser
  simp [createConnection, dumpsPy, hconn, hser, hex]

theorem publishAttempt_connfail_general (J : Codec) (p : PublishMessage)
    (f : List PyVal → SysState → SysState × PyVal) (args : List PyVal) (s : SysState)
    (rest : List Bool)
    (hconn : (f args s).1.connPlan = false :: rest) :
    publishAttempt J p f args s =
      ({ (f args s).1 with connPlan := rest }, Except.error PyErr.connectionError) := by
  rcases hf : f args s with ⟨s1, v⟩
  rw [hf] at hconn
  unfold publishAttempt
  rw [hf]
  simp only at hconn
  simp [createConnection, hconn]

theorem publishAttempt_serfail_general (J : Codec) (p : PublishMessage)
    (f : List PyVal → SysState → SysState × PyVal) (args : List PyVal) (s : SysState)
    (hex : p.exchange = "")
    (hconn : (f args s).1.connPlan = [])
    (hser : (f args s).2.serializable = false) :
    publishAttempt J p f args s =
      ({ (f args s).1 with broker := queueDeclare p.queue (f args s).1.broker },
       Except.error PyErr.serializationError) := by
  rcases hf : f args s with ⟨s1, v⟩
  rw [hf] at hconn hser
  unfold publishAttempt
  rw [hf]
  simp only at hconn hser
  simp [createConnection, dumpsPy, hconn, hser, hex]

theorem wrapper_fail_then_ok (J : Codec) (p : PublishMessage) (g : List PyVal → PyVal)
    (args : List PyVal) (hex : p.exchange = "") (hser : (g args).serializable = true) :
    ∀ (n k : Nat) (b : Broker) (tr : List (List PyVal)), k ≤ n →
      retryRun (publishAttempt J p (recording g) args) (n + 1)
          (SysState.mk b (List.replicate k false) tr) =
        (SysState.mk
           (basicPublish "" p.queue (J.dumps (g args)) (queueDeclare p.queue b)) []
           (tr ++ List.replicate (k + 1) args), Except.ok ()) := by
  intro n
  induction n with
  | zero =>
      intro k b tr hk
      have hk0 : k = 0 := Nat.le_zero.mp hk
      subst hk0
      rw [retryRun_one]
      rw [publishAttempt_ok_general J p (recording g) args _ hex (by simp [recording])
        (by simp [recording, hser])]
      simp [recording]
  | succ m ih =>
      intro k b tr hk
      cases k with
      | zero =>
          have hok := publishAttempt_ok_general J p (recording g) args
            (SysState.mk b (List.replicate 0 false) tr) hex (by simp [recording])
            (by simp [recording, hser])
          rw [retryRun_stop _ m _ (by rw [hok]; simp)]
          rw [hok]
          simp [recording]
      | succ j =>
          have hfail := publishAttempt_connfail_general J p (recording g) args
            (SysState.mk b (List.replicate (j + 1) false) tr) (List.replicate j false)
            (by simp [recording, List.replicate_succ])
          rw [retryRun_conn _ m _ _ hfail]
          have h2 := ih j b (tr ++ [args]) (Nat.le_of_succ_le_succ hk)
          exact h2.trans (by simp [List.replicate_succ, List.append_assoc])

theorem wrapper_all_fail (J : Codec) (p : PublishMessage) (g : List PyVal → PyVal)
    (args : List PyVal) :
    ∀ (n : Nat) (b : Broker) (tr : List (List PyVal)),
      retryRun (publishAttempt J p (recording g) args) (n + 1)
          (SysState.mk b (List.replicate (n + 1) false) tr) =
        (SysState.mk b [] (tr ++ List.replicate (n + 1) args),
         Except.error PyErr.connectionError) := by
  intro n
  induction n with
  | zero =>
      intro b tr
      have hfail := publishAttempt_connfail_general J p (recording g) args
        (SysState.mk b (List.replicate 1 false) tr) []
        (by simp [recording, List.replicate_succ])
      rw [retryRun_one, hfail]
      simp [recording]
  | succ m ih =>
      intro b tr
      have hfail := publishAttempt_connfail_general J p (recording g) args
        (SysState.mk b (List.replicate (m + 2) false) tr) (List.replicate (m + 1) false)
        (by simp [recording, List.replicate_succ])
      rw [retryRun_conn _ m _ _ hfail]
      have h2 := ih b (tr ++ [args])
      exact h2.trans (by simp [List.replicate_succ, List.append_assoc])

theorem dumpsPy_error (J : Codec) (v : PyVal) (e : PyErr)
    (h : dumpsPy J v = Except.error e) : e = PyErr.serializationError := by
  unfold dumpsPy at h
  split at h
  · exact absurd h (by simp)
  · simp only [Except.error.injEq] at h
    exact h.symm

theorem publishAttempt_error (J : Codec) (p : PublishMessage)
    (f : List PyVal → SysState → SysState × PyVal) (args : List PyVal) (s : SysState)
    (e : PyErr) (h : (publishAttempt J p f args s).2 = Except.error e) :
    e = PyErr.connectionError ∨ e = PyErr.serializationError := by
  unfold publishAttempt at h
  rcases hf : f args s with ⟨s1, v⟩
  rw [hf] at h
  simp only at h
  rcases hc : createConnection s1 with ⟨s2, r⟩
  rw [hc] at h
  cases r with
  | error e2 =>
      simp only [Except.error.injEq] at h
      subst h
      exact Or.inl (createConnection_error s1 e2 (by rw [hc]))
  | ok u =>
      cases u
      simp only at h
      by_cases hex : p.exchange ≠ ""
      · rw [if_pos hex] at h
        simp only [dumpsPy, PyVal.serializable, Bool.false_eq_true, if_false,
          Except.error.injEq] at h
        exact Or.inr h.symm
      · rw [if_neg hex] at h
        rcases hd : dumpsPy J v with e3 | body
        · rw [hd] at h
          simp only [Except.error.injEq] at h
          subst h
          exact Or.inr (dumpsPy_error J v e3 hd)
        · rw [hd] at h
          exact absurd h (by simp)

theorem retryRun_error {σ : Type} (op : σ → σ × Except PyErr Unit)
    (hop : ∀ (t : σ) (e : PyErr), (op t).2 = Except.error e →
      e = PyErr.connectionError ∨ e = PyErr.serializationError) :
    ∀ (n : Nat) (s : σ) (e : PyErr), (retryRun op n s).2 = Except.error e →
      e = PyErr.connectionError ∨ e = PyErr.serializationError := by
  intro n
  induction n using Nat.strong_induction_on with
  | _ n ih =>
    match n with
    | 0 =>
        intro s e h
        exact absurd h (by simp [retryRun])
    | 1 =>
        intro s e h
        rw [retryRun_one] at h
        exact hop s e h
    | m + 2 =>
        intro s e h
        have e2 : retryRun op (m + 2) s =
            (match op s with
             | (t, Except.error PyErr.connectionError) => retryRun op (m + 1) t
             | r => r) := rfl
        rw [e2] at h
        rcases ho : op s with ⟨t, r⟩
        rw [ho] at h
        cases r with
        | ok u => cases u; exact absurd h (by simp)
        | error e3 =>
            cases e3 with
            | connectionError =>
                exact ih (m + 1) (Nat.lt_succ_self _) t e h
            | serializationError =>
                simp only [Except.error.injEq] at h
                subst h
                exact Or.inr rfl
            | typeError =>
                simp only [Except.error.injEq] at h
                subst h
                exact hop s PyErr.typeError (by rw [ho])

theorem messageHandler_error (J : Codec) (c : ConsumeMessage)
    (f : PyVal → SysState → SysState × Unit) (ch me pr body : String) (s : SysState)
    (e : PyErr) (h : (messageHandler J c f ch me pr body s).2 = Except.error e) :
    e = PyErr.connectionError ∨ e = PyErr.serializationError := by
  unfold messageHandler at h
  rcases hl : J.loads body with e1 | v
  · rw [hl] at h
    simp only [Except.error.injEq] at h
    exact Or.inr h.symm
  · rw [hl] at h
    simp only at h
    cases hlog : c.logging with
    | false =>
        rw [hlog] at h
        simp only [Bool.false_eq_true, if_false] at h
        exact absurd h (by simp)
    | true =>
        rw [hlog] at h
        simp only [if_true] at h
        rcases hw : publishWrapper J (PublishMessage.mk c.loggingQueue "" "fanout")
            (fun _ s => (s, send_log ch me pr v)) [] s with ⟨s3, r⟩
        rw [hw] at h
        cases r with
        | ok u =>
            cases u
            simp only at h
            exact absurd h (by simp)
        | error e4 =>
            simp only [Except.error.injEq] at h
            subst h
            have hr : (retryRun
                (publishAttempt J (PublishMessage.mk c.loggingQueue "" "fanout")
                  (fun _ s => (s, send_log ch me pr v)) []) 5 s).2 = Except.error e4 := by
              rw [show retryRun
                  (publishAttempt J (PublishMessage.mk c.loggingQueue "" "fanout")
                    (fun _ s => (s, send_log ch me pr v)) []) 5 s =
                  publishWrapper J (PublishMessage.mk c.loggingQueue "" "fanout")
                    (fun _ s => (s, send_log ch me pr v)) [] s from rfl, hw]
            exact retryRun_error _
              (fun t e' h' => publishAttempt_error _ _ _ _ _ _ h') 5 s e4 hr

theorem startConsuming_error (J : Codec) (c : ConsumeMessage)
    (f : PyVal → SysState → SysState × Unit) :
    ∀ (ds : List (String × String × String × String)) (term : ListenEnd)
      (s : SysState) (e : PyErr),
      (startConsuming J c f ds term s).2 = Except.error e →
      e = PyErr.connectionError ∨ e = PyErr.serializationError := by
  intro ds
  induction ds with
  | nil =>
      intro term s e h
      exact absurd h (by simp [startConsuming])
  | cons d rest ih =>
      intro term s e h
      rcases d with ⟨ch, me, pr, body⟩
      unfold startConsuming at h
      rcases hm : messageHandler J c f ch me pr body s with ⟨s2, r⟩
      rw [hm] at h
      cases r with
      | ok u =>
          cases u
          exact ih term s2 e h
      | error e2 =>
          simp only [Except.error.injEq] at h
          subst h
          exact messageHandler_error J c f ch me pr body s e2 (by rw [hm])

theorem consumeAttempt_error (J : Codec) (c : ConsumeMessage)
    (f : PyVal → SysState → SysState × Unit)
    (ds : List (String × String × String × String)) (term : ListenEnd)
    (s : SysState) (e : PyErr)
    (h : (consumeAttempt J c f ds term s).2 = Except.error e) :
    e = PyErr.connectionError ∨ e = PyErr.serializationError := by
  unfold consumeAttempt at h
  rcases hc : createConnection s with ⟨s2, r⟩
  rw [hc] at h
  cases r with
  | error e2 =>
      simp only [Except.error.injEq] at h
      subst h
      exact Or.inl (createConnection_error s e2 (by rw [hc]))
  | ok u =>
      cases u
      simp only at h
      split at h
      · exact absurd h (by simp)
      · next s3 e3 heq =>
          simp only [Except.error.injEq] at h
          subst h
          exact startConsuming_error J c f ds term _ e3 (by rw [heq])

theorem consumeAttempt_nil_ok (J : Codec) (c : ConsumeMessage)
    (f : PyVal → SysState → SysState × Unit) (term : ListenEnd)
    (b : Broker) (tr : List (List PyVal)) :
    (consumeAttempt J c f [] term (SysState.mk b [] tr)).2 = Except.ok () := rfl

theorem messageHandler_ok_eval (J : Codec) (c : ConsumeMessage)
    (f : PyVal → SysState → SysState × Unit) (ch me pr body : String) (v : PyVal)
    (s : SysState) (hlog : c.logging = true) (hdec : J.loads body = Except.ok v)
    (hser : v.serializable = true) (hconn : s.connPlan = []) :
    messageHandler J c f ch me pr body s =
      ((f v { s with
              broker := basicPublish "" c.loggingQueue (J.dumps (send_log ch me pr v))
                (queueDeclare c.loggingQueue s.broker) }).1,
       Except.ok ()) := by
  have hok := publishAttempt_ok_general J (PublishMessage.mk c.loggingQueue "" "fanout")
    (fun _ s => (s, send_log ch me pr v)) [] s rfl (by simpa using hconn)
    (by simp [serializable_send_log, hser])
  have hw : publishWrapper J (PublishMessage.mk c.loggingQueue "" "fanout")
      (fun _ s => (s, send_log ch me pr v)) [] s =
      ({ s with
         broker := basicPublish "" c.loggingQueue (J.dumps (send_log ch me pr v))
           (queueDeclare c.loggingQueue s.broker) }, Except.ok ()) := by
    unfold publishWrapper
    rw [retryRun_stop _ 3 _ (by rw [hok]; simp)]
    rw [hok]
  unfold messageHandler
  rw [hdec]
  simp only [hlog, if_true]
  rw [hw]

theorem messageHandler_nolog_eval (J : Codec) (c : ConsumeMessage)
    (f : PyVal → SysState → SysState × Unit) (ch me pr body : String) (v : PyVal)
    (s : SysState) (hlog : c.logging = false) (hdec : J.loads body = Except.ok v) :
    messageHandler J c f ch me pr body s = ((f v s).1, Except.ok ()) := by
  unfold messageHandler
  rw [hdec]
  simp only [hlog, Bool.false_eq_true, if_false]

/-! ## Claim theorems -/

/-- C1: refuted on the exchange path (code bug).  The claim says the body
published by the Publisher is the JSON serialization of the value
returned by the wrapped function, using the given exchange when one is
supplied.  In `PublishMessage.__call__.wrapper` the exchange branch
rebinds `result` to the frame returned by `channel.queue_declare` before
serializing, so `json.dumps` is applied to the frame: the call raises a
serialization error and publishes nothing, contradicting the wrapper
docstring.  Concrete evaluation: queue "q", exchange "ex", wrapped
function returning the dict with key x mapped to 1; after exactly one
invocation of the function (`fCalls = [[]]`) the call fails with the
serialization error and the publish log stays empty. -/
theorem publishMessage_exchange_discards_result :
    publishWrapper simpleCodec (PublishMessage.mk "q" "ex" "fanout")
        (recording (fun _ => PyVal.dict [("x", PyVal.int 1)])) []
        (SysState.mk (Broker.mk [] [] [] []) [] []) =
      (SysState.mk (Broker.mk ["q"] [("ex", "fanout")] [("ex", "q")] []) [] [[]],
       Except.error PyErr.serializationError) := rfl

/-- C2: confirmed.  For every delivered message whose body decodes to a
serializable value `v`, the handler of `ConsumeMessage` with logging
enabled first publishes the envelope `send_log channel method properties
v` (body field holding the decoded original body) to the logging queue on
the default empty exchange, and only then invokes the wrapped function
exactly once, with the decoded body: the final state is exactly one
application of `f` to `v` in the post-logging state `slog`, whose publish
log extends the initial one by exactly the one log event and whose
user-function trace is unchanged. -/
theorem consumer_logs_envelope_then_invokes (J : Codec) (c : ConsumeMessage)
    (f : PyVal → SysState → SysState × Unit) (ch me pr body : String) (v : PyVal)
    (s : SysState) (hlog : c.logging = true) (hdec : J.loads body = Except.ok v)
    (hser : v.serializable = true) (hconn : s.connPlan = []) :
    ∃ slog : SysState,
      slog.broker.published = s.broker.published ++
        [PubEvent.mk "" c.loggingQueue (J.dumps (send_log ch me pr v))] ∧
      slog.fCalls = s.fCalls ∧
      messageHandler J c f ch me pr body s = ((f v slog).1, Except.ok ()) := by
  refine ⟨{ s with
            broker := basicPublish "" c.loggingQueue (J.dumps (send_log ch me pr v))
              (queueDeclare c.loggingQueue s.broker) }, ?_, rfl, ?_⟩
  · simp [basicPublish, published_queueDeclare]
  · exact messageHandler_ok_eval J c f ch me pr body v s hlog hdec hser hconn

/-- Witness for C2 at a concrete input: body "t" decoding to the boolean
true, default consumer configuration, empty initial state. -/
theorem consumer_logs_envelope_then_invokes_witness :
    ∃ slog : SysState,
      slog.broker.published = [PubEvent.mk "" "logging"
        (simpleCodec.dumps (send_log "c" "m" "p" (PyVal.bool true)))] ∧
      slog.fCalls = [] ∧
      messageHandler simpleCodec (ConsumeMessage.mk "q" "" "" true "logging")
          (fun _ u => (u, ())) "c" "m" "p" "t" (SysState.mk (Broker.mk [] [] [] []) [] []) =
        (((fun (_ : PyVal) (u : SysState) => (u, ())) (PyVal.bool true) slog).1,
         Except.ok ()) :=
  consumer_logs_envelope_then_invokes simpleCodec (ConsumeMessage.mk "q" "" "" true "logging")
    (fun _ u => (u, ())) "c" "m" "p" "t" (PyVal.bool true)
    (SysState.mk (Broker.mk [] [] [] []) [] []) rfl rfl rfl rfl

/-- C3: confirmed against the publisher wrapper (the retry decorator
itself is external and modelled from its documented semantics as
configured, `tries=5` on `AMQPConnectionError`).  With connection
establishment failing on the first four attempts, the call succeeds and
the wrapped operation ran five times (the user function runs once per
attempt, so `fCalls` counts attempts); with connection establishment
failing on every attempt, the call raises the connection error and the
operation ran exactly five times. -/
theorem retry_connection_failure_attempt_counts (J : Codec) (p : PublishMessage)
    (g : List PyVal → PyVal) (args : List PyVal) (b : Broker)
    (hex : p.exchange = "") (hser : (g args).serializable = true) :
    ((publishWrapper J p (recording g) args
        (SysState.mk b (List.replicate 4 false) [])).2 = Except.ok () ∧
      (publishWrapper J p (recording g) args
        (SysState.mk b (List.replicate 4 false) [])).1.fCalls.length = 5) ∧
    ((publishWrapper J p (recording g) args
        (SysState.mk b (List.replicate 5 false) [])).2 =
          Except.error PyErr.connectionError ∧
      (publishWrapper J p (recording g) args
        (SysState.mk b (List.replicate 5 false) [])).1.fCalls.length = 5) := by
  have h1 : retryRun (publishAttempt J p (recording g) args) 5
      (SysState.mk b (List.replicate 4 false) []) =
      (SysState.mk (basicPublish "" p.queue (J.dumps (g args)) (queueDeclare p.queue b)) []
        ([] ++ List.replicate 5 args), Except.ok ()) :=
    wrapper_fail_then_ok J p g args hex hser 4 4 b [] (le_refl 4)
  have h2 : retryRun (publishAttempt J p (recording g) args) 5
      (SysState.mk b (List.replicate 5 false) []) =
      (SysState.mk b [] ([] ++ List.replicate 5 args),
       Except.error PyErr.connectionError) :=
    wrapper_all_fail J p g args 4 b []
  unfold publishWrapper
  rw [h1, h2]
  simp

/-- Witness for C3 at a concrete input: queue "q", empty exchange, wrapped
function returning the Python None value. -/
theorem retry_connection_failure_attempt_counts_witness :
    ((publishWrapper simpleCodec (PublishMessage.mk "q" "" "fanout")
        (recording (fun _ => PyVal.none)) []
        (SysState.mk (Broker.mk [] [] [] []) (List.replicate 4 false) [])).2 =
          Except.ok () ∧
      (publishWrapper simpleCodec (PublishMessage.mk "q" "" "fanout")
        (recording (fun _ => PyVal.none)) []
        (SysState.mk (Broker.mk [] [] [] []) (List.replicate 4 false) [])).1.fCalls.length = 5) ∧
    ((publishWrapper simpleCodec (PublishMessage.mk "q" "" "fanout")
        (recording (fun _ => PyVal.none)) []
        (SysState.mk (Broker.mk [] [] [] []) (List.replicate 5 false) [])).2 =
          Except.error PyErr.connectionError ∧
      (publishWrapper simpleCodec (PublishMessage.mk "q" "" "fanout")
        (recording (fun _ => PyVal.none)) []
        (SysState.mk (Broker.mk [] [] [] []) (List.replicate 5 false) [])).1.fCalls.length = 5) :=
  retry_connection_failure_attempt_counts simpleCodec (PublishMessage.mk "q" "" "fanout")
    (fun _ => PyVal.none) [] (Broker.mk [] [] [] []) rfl rfl

/-- C4: confirmed.  An error other than connection establishment is not
retried: with the transport reachable and the wrapped function returning
a non-encodable value, the publisher wrapper raises the serialization
error immediately after a single invocation of the operation (the trace
holds exactly one call), with nothing published. -/
theorem serialization_error_not_retried (J : Codec) (p : PublishMessage)
    (g : List PyVal → PyVal) (args : List PyVal) (b : Broker)
    (hex : p.exchange = "") (hser : (g args).serializable = false) :
    publishWrapper J p (recording g) args (SysState.mk b [] []) =
      (SysState.mk (queueDeclare p.queue b) [] [args],
       Except.error PyErr.serializationError) := by
  have hfail := publishAttempt_serfail_general J p (recording g) args
    (SysState.mk b [] []) hex (by simp [recording]) (by simp [recording, hser])
  unfold publishWrapper
  rw [retryRun_stop _ 3 _ (by rw [hfail]; simp)]
  rw [hfail]
  rfl

/-- Witness for C4 at a concrete input: the wrapped function returns the
non-encodable frame value. -/
theorem serialization_error_not_retried_witness :
    publishWrapper simpleCodec (PublishMessage.mk "q" "" "fanout")
        (recording (fun _ => PyVal.frame)) []
        (SysState.mk (Broker.mk [] [] [] []) [] []) =
      (SysState.mk (queueDeclare "q" (Broker.mk [] [] [] [])) [] [[]],
       Except.error PyErr.serializationError) :=
  serialization_error_not_retried simpleCodec (PublishMessage.mk "q" "" "fanout")
    (fun _ => PyVal.frame) [] (Broker.mk [] [] [] []) rfl rfl

/-- C5: refuted for a sequence of queue names (code bug).  The claim says
the return of the wrapped function is forwarded to each named queue when
`publishQueues` is an ordered sequence of names.  `consume_message` in
`base.py` passes the whole list as the `queue` argument of a single
`publish_message` call, and pika rejects a non-string queue name, so the
handler raises a TypeError after invoking the function once and no queue
receives anything.  Concrete evaluation: `publish_queues` the two-element
list of "q1" and "q2", delivered body "t" decoding to the boolean true;
the handler ends in the TypeError with an empty publish log and exactly
one invocation of the function. -/
theorem forward_to_queue_list_raises_type_error :
    baseMessageHandler simpleCodec (Option.some (QueueArg.many ["q1", "q2"])) ""
        (recording (fun _ => PyVal.dict [("y", PyVal.int 2)])) "c" "m" "p" "t"
        (SysState.mk (Broker.mk [] [] [] []) [] []) =
      (SysState.mk (Broker.mk [] [] [] []) [] [[PyVal.bool true]],
       Except.error PyErr.typeError) := rfl

/-- C6: confirmed.  Publishing a serializable value with the Publisher on
the default empty exchange records exactly one publish event carrying
the encoded body with the queue name as routing key (so the message is
delivered to that queue), and the consumer handler on that body hands the
decoded value, deep-equal to the original, to the wrapped function: the
codec round-trip assumption on `v` is exactly the "no encoding of
non-serializable types" proviso of the claim. -/
theorem publish_consume_round_trip (J : Codec) (q et ch me pr : String) (v : PyVal)
    (g : PyVal → SysState → SysState × Unit) (s t : SysState)
    (hser : v.serializable = true) (hround : J.loads (J.dumps v) = Except.ok v)
    (hconn : s.connPlan = []) :
    publishWrapper J (PublishMessage.mk q "" et) (fun _ u => (u, v)) [] s =
      ({ s with broker := basicPublish "" q (J.dumps v) (queueDeclare q s.broker) },
       Except.ok ()) ∧
    messageHandler J (ConsumeMessage.mk q "" "" false "logging") g ch me pr
        (J.dumps v) t =
      ((g v t).1, Except.ok ()) := by
  constructor
  · have hok := publishAttempt_ok_general J (PublishMessage.mk q "" et)
      (fun _ u => (u, v)) [] s rfl (by simpa using hconn) (by simpa using hser)
    unfold publishWrapper
    rw [retryRun_stop _ 3 _ (by rw [hok]; simp)]
    rw [hok]
  · exact messageHandler_nolog_eval J (ConsumeMessage.mk q "" "" false "logging")
      g ch me pr (J.dumps v) v t rfl hround

/-- Witness for C6 at a concrete input: the dict with key x mapped to 1
and the concrete codec, for which decode after encode is checked by
evaluation. -/
theorem publish_consume_round_trip_witness :
    publishWrapper simpleCodec (PublishMessage.mk "q1" "" "fanout")
        (fun _ u => (u, PyVal.dict [("x", PyVal.int 1)])) []
        (SysState.mk (Broker.mk [] [] [] []) [] []) =
      ({ SysState.mk (Broker.mk [] [] [] []) [] [] with
         broker := basicPublish "" "q1" (simpleCodec.dumps (PyVal.dict [("x", PyVal.int 1)]))
           (queueDeclare "q1" (Broker.mk [] [] [] [])) }, Except.ok ()) ∧
    messageHandler simpleCodec (ConsumeMessage.mk "q1" "" "" false "logging")
        (fun _ u => (u, ())) "c" "m" "p"
        (simpleCodec.dumps (PyVal.dict [("x", PyVal.int 1)]))
        (SysState.mk (Broker.mk [] [] [] []) [] []) =
      (((fun (_ : PyVal) (u : SysState) => (u, ())) (PyVal.dict [("x", PyVal.int 1)])
          (SysState.mk (Broker.mk [] [] [] []) [] [])).1, Except.ok ()) :=
  publish_consume_round_trip simpleCodec "q1" "fanout" "c" "m" "p"
    (PyVal.dict [("x", PyVal.int 1)]) (fun _ u => (u, ()))
    (SysState.mk (Broker.mk [] [] [] []) [] [])
    (SysState.mk (Broker.mk [] [] [] []) [] []) rfl rfl rfl

theorem basePrepareChannelSingle_none (J : Codec) (cq : String)
    (pq : Option QueueArg) (ex : String)
    (f : List PyVal → SysState → SysState × PyVal) (s : SysState)
    (hconn : s.connPlan = []) :
    basePrepareChannelSingle J cq pq ex f Option.none s =
      ({ s with broker := queueDeclare cq s.broker }, Except.ok ()) := by
  unfold basePrepareChannelSingle createConnection
  simp [hconn]

theorem basePrepareChannelSingle_some (J : Codec) (cq : String)
    (pq : Option QueueArg) (ex : String)
    (f : List PyVal → SysState → SysState × PyVal) (m p b : String) (s : SysState)
    (hconn : s.connPlan = []) (hb : b ≠ "") :
    basePrepareChannelSingle J cq pq ex f (Option.some (m, p, b)) s =
      baseMessageHandler J pq ex f "None" "None" "None" b
        { s with broker := queueDeclare cq s.broker } := by
  unfold basePrepareChannelSingle createConnection
  simp [hconn, hb]

/-- C7 counterexample: the claim fails at a fetched message with an empty
body.  `basic_get` returned a message (so one is immediately available),
but the code guards the handler with the truthiness of `body`, so the
empty body is treated like an absent message: the call returns normally
with the function never invoked, while running the handler logic once on
that message, as the claim requires, would raise the serialization error
(the configured forwarding queue makes the handler decode the body). -/
theorem single_fetch_empty_body_not_handled :
    basePrepareChannelSingle simpleCodec "q1" (Option.some (QueueArg.one "q2")) ""
        (recording (fun _ => PyVal.none)) (Option.some ("m", "p", ""))
        (SysState.mk (Broker.mk [] [] [] []) [] []) =
      (SysState.mk (Broker.mk ["q1"] [] [] []) [] [], Except.ok ()) ∧
    baseMessageHandler simpleCodec (Option.some (QueueArg.one "q2")) ""
        (recording (fun _ => PyVal.none)) "None" "None" "None" ""
        (SysState.mk (Broker.mk ["q1"] [] [] []) [] []) =
      (SysState.mk (Broker.mk ["q1"] [] [] []) [] [],
       Except.error PyErr.serializationError) := ⟨rfl, rfl⟩

/-- C7 as amended: one non-blocking fetch; on an empty queue the call
declares the consume queue and returns without error, never invoking the
wrapped function; when the fetched message has a NON-EMPTY body, the
handler logic runs exactly once on it. -/
theorem single_fetch_runs_handler_once (J : Codec) (cq : String)
    (pq : Option QueueArg) (ex : String)
    (f : List PyVal → SysState → SysState × PyVal) (m p b : String) (s : SysState)
    (hconn : s.connPlan = []) :
    basePrepareChannelSingle J cq pq ex f Option.none s =
      ({ s with broker := queueDeclare cq s.broker }, Except.ok ()) ∧
    (b ≠ "" →
      basePrepareChannelSingle J cq pq ex f (Option.some (m, p, b)) s =
        baseMessageHandler J pq ex f "None" "None" "None" b
          { s with broker := queueDeclare cq s.broker }) :=
  ⟨basePrepareChannelSingle_none J cq pq ex f s hconn,
   fun hb => basePrepareChannelSingle_some J cq pq ex f m p b s hconn hb⟩

/-- Witness for the amended C7 at a concrete input: body "t". -/
theorem single_fetch_runs_handler_once_witness :
    basePrepareChannelSingle simpleCodec "q1" (Option.some (QueueArg.one "q2")) ""
        (recording (fun _ => PyVal.none)) Option.none
        (SysState.mk (Broker.mk [] [] [] []) [] []) =
      ({ SysState.mk (Broker.mk [] [] [] []) [] [] with
         broker := queueDeclare "q1" (Broker.mk [] [] [] []) }, Except.ok ()) ∧
    basePrepareChannelSingle simpleCodec "q1" (Option.some (QueueArg.one "q2")) ""
        (recording (fun _ => PyVal.none)) (Option.some ("m", "p", "t"))
        (SysState.mk (Broker.mk [] [] [] []) [] []) =
      baseMessageHandler simpleCodec (Option.some (QueueArg.one "q2")) ""
        (recording (fun _ => PyVal.none)) "None" "None" "None" "t"
        { SysState.mk (Broker.mk [] [] [] []) [] [] with
          broker := queueDeclare "q1" (Broker.mk [] [] [] []) } :=
  ⟨(single_fetch_runs_handler_once simpleCodec "q1" (Option.some (QueueArg.one "q2")) ""
      (recording (fun _ => PyVal.none)) "m" "p" "t"
      (SysState.mk (Broker.mk [] [] [] []) [] []) rfl).1,
   (single_fetch_runs_handler_once simpleCodec "q1" (Option.some (QueueArg.one "q2")) ""
      (recording (fun _ => PyVal.none)) "m" "p" "t"
      (SysState.mk (Broker.mk [] [] [] []) [] []) rfl).2 (by decide)⟩

/-- C8: confirmed.  During active listening with `ConsumeMessage`, a
connection-closed-by-broker event and an operator interrupt are both
swallowed (`except ... : pass` and `except KeyboardInterrupt:
stop_consuming`) and the registration call returns normally; and every
error the registration call can surface is either the connection error
(re-raised only after the five retry attempts are exhausted) or the
serialization error — delivered messages, the logging publish and the
terminal listening event can produce nothing else. -/
theorem consume_stop_events_swallowed_and_error_surface (J : Codec)
    (c : ConsumeMessage) (f : PyVal → SysState → SysState × Unit)
    (deliveries : List (String × String × String × String)) (term : ListenEnd)
    (s : SysState) :
    (s.connPlan = [] → (consumeWrapper J c f [] term s).2 = Except.ok ()) ∧
    (∀ e : PyErr, (consumeWrapper J c f deliveries term s).2 = Except.error e →
      e = PyErr.connectionError ∨ e = PyErr.serializationError) := by
  constructor
  · intro hconn
    rcases s with ⟨b, plan, tr⟩
    simp only at hconn
    subst hconn
    have hok := consumeAttempt_nil_ok J c f term b tr
    unfold consumeWrapper
    rw [retryRun_stop _ 3 _ (by simp [hok])]
    exact hok
  · intro e h
    exact retryRun_error _
      (fun t e' h' => consumeAttempt_error J c f deliveries term t e' h') 5 s e h

/-- Witness for C8 at concrete inputs: an empty delivery list ends by the
broker closing the connection and the call returns normally; a delivery
with undecodable body "bad" surfaces the serialization error. -/
theorem consume_stop_events_swallowed_and_error_surface_witness :
    (consumeWrapper simpleCodec (ConsumeMessage.mk "q" "" "" true "logging")
        (fun _ u => (u, ())) [] ListenEnd.brokerClosed
        (SysState.mk (Broker.mk [] [] [] []) [] [])).2 = Except.ok () ∧
    (PyErr.serializationError = PyErr.connectionError ∨
      PyErr.serializationError = PyErr.serializationError) :=
  ⟨(consume_stop_events_swallowed_and_error_surface simpleCodec
      (ConsumeMessage.mk "q" "" "" true "logging") (fun _ u => (u, ()))
      [("c", "m", "p", "bad")] ListenEnd.brokerClosed
      (SysState.mk (Broker.mk [] [] [] []) [] [])).1 rfl,
   (consume_stop_events_swallowed_and_error_surface simpleCodec
      (ConsumeMessage.mk "q" "" "" true "logging") (fun _ u => (u, ()))
      [("c", "m", "p", "bad")] ListenEnd.brokerClosed
      (SysState.mk (Broker.mk [] [] [] []) [] [])).2 PyErr.serializationError rfl⟩

/-- C9: refuted (code bug).  The pipeline wrapper invokes the listener
returned by `consume_message` with the message dictionary as a positional
argument, but `prepare_channel` in `base.py` is declared with no
parameters, so every pipeline call raises a TypeError before touching the
broker — not the outcome of using the Consumer directly, which (called
with no arguments, non-production mode, empty queue) declares the queue
and returns normally. -/
theorem pipeline_arity_type_error :
    messagePipelineWrapper simpleCodec "cq" "pq" "" false
        (recording (fun _ => PyVal.none)) Option.none [] ListenEnd.interrupt
        (PyVal.dict [("x", PyVal.int 1)]) (SysState.mk (Broker.mk [] [] [] []) [] []) =
      (SysState.mk (Broker.mk [] [] [] []) [] [], Except.error PyErr.typeError) ∧
    baseConsumeListener simpleCodec "cq" (Option.some (QueueArg.one "pq")) "" false
        (recording (fun _ => PyVal.none)) Option.none [] ListenEnd.interrupt []
        (SysState.mk (Broker.mk [] [] [] []) [] []) =
      (SysState.mk (Broker.mk ["cq"] [] [] []) [] [], Except.ok ()) := ⟨rfl, rfl⟩

/-- C10: confirmed.  In the publisher, the user function runs inside the
retried region: when connection establishment fails on the first k of at
most four attempts and then succeeds, the single wrapped call executes
the user function k + 1 times (the invocation trace is k + 1 copies of
the argument list), repeating its effects and serialization on every
attempt. -/
theorem publisher_invokes_f_per_attempt (J : Codec) (p : PublishMessage)
    (g : List PyVal → PyVal) (args : List PyVal) (b : Broker) (k : Nat)
    (hk : k ≤ 4) (hex : p.exchange = "") (hser : (g args).serializable = true) :
    publishWrapper J p (recording g) args (SysState.mk b (List.replicate k false) []) =
      (SysState.mk (basicPublish "" p.queue (J.dumps (g args)) (queueDeclare p.queue b))
        [] (List.replicate (k + 1) args), Except.ok ()) := by
  have h1 : retryRun (publishAttempt J p (recording g) args) 5
      (SysState.mk b (List.replicate k false) []) =
      (SysState.mk (basicPublish "" p.queue (J.dumps (g args)) (queueDeclare p.queue b))
        [] ([] ++ List.replicate (k + 1) args), Except.ok ()) :=
    wrapper_fail_then_ok J p g args hex hser 4 k b [] hk
  unfold publishWrapper
  rw [h1]
  simp

/-- Witness for C10 at a concrete input: two connection failures before
success, so the wrapped function runs three times. -/
theorem publisher_invokes_f_per_attempt_witness :
    publishWrapper simpleCodec (PublishMessage.mk "q" "" "fanout")
        (recording (fun _ => PyVal.none)) []
        (SysState.mk (Broker.mk [] [] [] []) (List.replicate 2 false) []) =
      (SysState.mk (basicPublish "" "q" (simpleCodec.dumps PyVal.none)
          (queueDeclare "q" (Broker.mk [] [] [] []))) []
        (List.replicate 3 []), Except.ok ()) :=
  publisher_invokes_f_per_attempt simpleCodec (PublishMessage.mk "q" "" "fanout")
    (fun _ => PyVal.none) [] (Broker.mk [] [] [] []) 2 (by decide) rfl rfl
